import Mathlib

/-!
Shallow embedding of the conversational session engine of `aichat`
(files `src/config/session.rs`, `src/config/role.rs`).

Rust `String` is modelled by Lean `String`, `Vec<T>` by `List T`,
`Option<T>` by `Option T`, `usize` by `Nat` (the quantities involved —
lengths, token counts, thresholds — never overflow in the claims
considered), and `f64` by `ℚ` (temperatures are only stored, moved and
compared, never computed with).  Fallible mutating methods on
`&mut self` are modelled as functions returning the updated state
together with an optional error.
-/

set_option autoImplicit false

/-- Model of Rust `str::replace` restricted to one step of matching,
written with an explicit fuel argument (one unit per character examined)
so that it is structurally recursive and kernel-evaluable.  `replace`
scans left to right and substitutes every non-overlapping occurrence of
the (non-empty) pattern. -/
def replaceCharsAux (pat rep : List Char) : Nat → List Char → List Char
  | 0, l => l
  | _ + 1, [] => []
  | fuel + 1, c :: cs =>
    if pat.isPrefixOf (c :: cs) ∧ pat ≠ [] then
      rep ++ replaceCharsAux pat rep fuel ((c :: cs).drop pat.length)
    else
      c :: replaceCharsAux pat rep fuel cs

/-- Rust `str::replace self pat rep`: replace every non-overlapping
occurrence of `pat` in `self` by `rep`, scanning left to right. -/
def String.replaceAll (s pat rep : String) : String :=
  ⟨replaceCharsAux pat.data rep.data s.data.length s.data⟩

/-- Rust `str::contains` for a literal pattern: `pat` occurs as a
contiguous substring of `s`. -/
def listContainsSub (s pat : List Char) : Bool :=
  pat.isPrefixOf s ||
    match s with
    | [] => false
    | _ :: rest => listContainsSub rest pat

/-- Rust `str::contains` on strings. -/
def String.containsSub (s pat : String) : Bool :=
  listContainsSub s.data pat.data

/-- Rust `str::trim`: remove whitespace from both ends (kernel-evaluable
model; Rust trims Unicode whitespace, the placeholders and arguments in
this repository are ASCII). -/
def String.trimStr (s : String) : String :=
  ⟨((s.data.dropWhile Char.isWhitespace).reverse.dropWhile Char.isWhitespace).reverse⟩

/-- Rust `str::split` on a single separator character, as a list of
strings (kernel-evaluable model of the iterator). -/
def String.splitChar (s : String) (sep : Char) : List String :=
  (s.data.splitOn sep).map fun l => ⟨l⟩

/-- Constant INPUT_PLACEHOLDER from `role.rs`. -/
def INPUT_PLACEHOLDER : String := "__INPUT__"

/-- Modelled from the spec: the `Message` data model (§3) lives in the
repository module `client`, which is not among the provided sources.
`role: enum {System, User, Assistant}`. -/
inductive MessageRole where
  | System
  | User
  | Assistant
deriving DecidableEq, Repr

/-- Modelled from the spec: a block of a mixed text/attachment payload
(`Mixed(ordered sequence of {text block | attachment reference})`). -/
inductive ContentPart where
  | text : String → ContentPart
  | attachment : String → ContentPart
deriving DecidableEq, Repr

/-- Modelled from the spec: `MessageContent` is a tagged value, either
plain text or a mixed text/attachment payload (§3). -/
inductive MessageContent where
  | Text : String → MessageContent
  | Mixed : List ContentPart → MessageContent
deriving DecidableEq, Repr

/-- Modelled from the spec: `MessageContent` "supports merging a
template string around itself" (§2); `merge_prompt` applies the
template function to the textual part(s) of the content.  The defining
file is not among the provided sources. -/
def MessageContent.merge_prompt (f : String → String) : MessageContent → MessageContent
  | .Text s => .Text (f s)
  | .Mixed parts =>
    .Mixed (parts.map fun p =>
      match p with
      | .text t => .text (f t)
      | .attachment a => .attachment a)

/-- Modelled from the spec: `Message` (§3), with significant ordering. -/
structure Message where
  role : MessageRole
  content : MessageContent
deriving DecidableEq, Repr

/-- Modelled from the spec: the `Input` collaborator interface (§6):
`render() -> string`, `to_message_content() -> MessageContent`,
`data_urls() -> mapping id→url`.  The mapping is modelled as an
association list of (id, url) pairs. -/
structure Input where
  render : String
  to_message_content : MessageContent
  data_urls : List (String × String)
deriving DecidableEq, Repr

/-- Modelled from the spec: the `Model` collaborator interface (§6):
`id() -> string`, `max_input_tokens: optional integer`,
`total_tokens(messages) -> integer` (an injected tokenizer/estimator,
modelled as an arbitrary function). -/
structure Model where
  id : String
  max_input_tokens : Option Nat
  total_tokens : List Message → Nat

/-- Struct `Role` from `role.rs`: name, prompt template, optional temperature. -/
structure Role where
  name : String
  prompt : String
  temperature : Option ℚ
deriving DecidableEq, Repr

/-- Rust `Role::embedded` (`role.rs`): the prompt contains the input
placeholder token. -/
def Role.embedded (r : Role) : Bool :=
  r.prompt.containsSub INPUT_PLACEHOLDER

/-- Body shared by the free function `complete_prompt_args` of `role.rs`
and the method `Role::complete_prompt_args` that calls it: trim the
prompt, then for each colon-delimited argument of `name` past the base
segment, replace the positional placeholder `__ARGi__` (1-based) by it,
in sequence. -/
def completePromptArgsCore (prompt name : String) : String :=
  ((name.splitChar ':').drop 1).enum.foldl
    (fun p ia => p.replaceAll ("__ARG" ++ toString (ia.1 + 1) ++ "__") ia.2)
    prompt.trimStr

/-- Free function `complete_prompt_args` (`role.rs`). -/
def complete_prompt_args (prompt name : String) : String :=
  completePromptArgsCore prompt name

/-- Rust `Role::complete_prompt_args` (`role.rs`): set the name,
substitute the positional placeholders in the prompt. -/
def Role.complete_prompt_args (r : Role) (name : String) : Role :=
  { r with name := name, prompt := completePromptArgsCore r.prompt name }

/-- Rust `Role::build_messages` (`role.rs`): an embedded role merges the
input into its template and yields a single User message; otherwise the
literal prompt becomes a System message followed by a User message with
the raw input content. -/
def Role.build_messages (r : Role) (input : Input) : List Message :=
  let content := input.to_message_content
  if r.embedded then
    [{ role := .User,
       content := content.merge_prompt fun v => r.prompt.replaceAll INPUT_PLACEHOLDER v }]
  else
    [{ role := .System, content := .Text r.prompt },
     { role := .User, content }]

/-- Insertion into the attachment table.  Rust `HashMap::insert`
semantics on the association-list model: an existing binding of the key
is overwritten, otherwise the pair is appended. -/
def insertAL (m : List (String × String)) (k v : String) : List (String × String) :=
  if (m.map Prod.fst).contains k then
    m.map fun p => if p.1 = k then (k, v) else p
  else
    m ++ [(k, v)]

/-- Rust `HashMap::extend` on the association-list model: insert every
pair of `entries` in turn. -/
def extendAL (m entries : List (String × String)) : List (String × String) :=
  entries.foldl (fun acc kv => insertAL acc kv.1 kv.2) m

/-- Struct `Session` from `session.rs`.  The first six fields are the
persisted shape; `name`, `path`, `dirty`, `compressing`, `role` and
`model` are transient (serde-skipped). -/
structure Session where
  model_id : String
  temperature : Option ℚ
  messages : List Message
  data_urls : List (String × String)
  compressed_messages : List Message
  compress_threshold : Option Nat
  name : String
  path : Option String
  dirty : Bool
  compressing : Bool
  role : Option Role
  model : Model

/-- Rust `Session::new` (`session.rs`). -/
def Session.new (name : String) (model : Model) (role : Option Role) : Session :=
  { model_id := model.id
    temperature := role.bind Role.temperature
    messages := []
    compressed_messages := []
    compress_threshold := none
    data_urls := []
    name := name
    path := none
    dirty := false
    compressing := false
    role := role
    model := model }

/-- Rust `Session::tokens` (`session.rs`): delegate to the bound model's
estimator over the live messages. -/
def Session.tokens (s : Session) : Nat :=
  s.model.total_tokens s.messages

/-- Rust `Session::need_compress` (`session.rs`). -/
def Session.need_compress (s : Session) (current_compress_threshold : Nat) : Bool :=
  let threshold := s.compress_threshold.getD current_compress_threshold
  decide (1000 ≤ threshold) && decide (threshold < s.tokens)

/-- Rust `Session::is_empty` (`session.rs`). -/
def Session.is_empty (s : Session) : Bool :=
  s.messages.isEmpty

/-- Rust `Session::guard_empty` (`session.rs`): bail if the session has
messages. -/
def Session.guard_empty (s : Session) : Except String Unit :=
  if ¬ s.is_empty then
    .error "Cannot perform this action in a session with messages"
  else
    .ok ()

/-- Rust `Session::guard_save` (`session.rs`): bail if the session has
no backing path. -/
def Session.guard_save (s : Session) : Except String Unit :=
  if s.path.isNone then
    .error ("Not found session " ++ s.name)
  else
    .ok ()

/-- Rust `Session::update_role` (`session.rs`): guard on an empty
session, then bind the role and take its temperature.  The mutation of
`&mut self` is modelled by returning the updated session next to the
optional error; on the error path the early `?` return leaves the
session untouched. -/
def Session.update_role (s : Session) (role : Option Role) : Session × Option String :=
  match s.guard_empty with
  | .error e => (s, some e)
  | .ok _ =>
    ({ s with temperature := role.bind Role.temperature, role := role }, none)

/-- Rust `Session::compress` (`session.rs`): move the entire live
history onto the compressed ledger (`Vec::append` drains `messages`
into `compressed_messages`), leave a single synthetic System message,
clear the role, mark dirty. -/
def Session.compress (s : Session) (prompt : String) : Session :=
  { s with
    compressed_messages := s.compressed_messages ++ s.messages
    messages := [{ role := .System, content := .Text prompt }]
    role := none
    dirty := true }

/-- Rust `Session::add_message` (`session.rs`).  The Rust method always
returns `Ok(())`, so the result is just the updated session. -/
def Session.add_message (s : Session) (input : Input) (output : String) : Session :=
  let start :=
    if s.messages.isEmpty then
      match s.role with
      | some role => (s.messages ++ role.build_messages input, false)
      | none => (s.messages, true)
    else
      (s.messages, true)
  let withUser :=
    if start.2 then
      start.1 ++ [{ role := .User, content := input.to_message_content }]
    else
      start.1
  { s with
    messages := withUser ++ [{ role := .Assistant, content := .Text output }]
    data_urls := extendAL s.data_urls input.data_urls
    role := none
    dirty := true }

/-- Rust `Session::clear_messages` (`session.rs`). -/
def Session.clear_messages (s : Session) : Session :=
  { s with
    messages := []
    compressed_messages := []
    data_urls := []
    dirty := true }

/-- Rust `Session::build_emssages` (`session.rs`) (sic): read-only
construction of the next outbound request. -/
def Session.build_emssages (s : Session) (input : Input) : List Message :=
  let messages := s.messages
  let len := messages.length
  let step :=
    if len = 0 then
      match s.role with
      | some role => (role.build_messages input, false)
      | none => (messages, true)
    else if len = 1 ∧ 2 ≤ s.compressed_messages.length then
      (messages ++ s.compressed_messages.drop (s.compressed_messages.length - 2), true)
    else
      (messages, true)
  if step.2 then
    step.1 ++ [{ role := .User, content := input.to_message_content }]
  else
    step.1

/-- Persisted shape of a session (`session.rs`): exactly the six
serde-serialized fields, with `model_id` renamed to `model`.  The
transient fields (`name`, `path`, `dirty`, `compressing`, `role`,
`model`) are serde-skipped and absent. -/
structure PersistedSession where
  model : String
  temperature : Option ℚ
  messages : List Message
  data_urls : List (String × String)
  compressed_messages : List Message
  compress_threshold : Option Nat
deriving DecidableEq

/-- Serialization of a session to its persisted shape (the structured
content handed to the YAML writer by `Session::save`). -/
def Session.persisted (s : Session) : PersistedSession :=
  { model := s.model_id
    temperature := s.temperature
    messages := s.messages
    data_urls := s.data_urls
    compressed_messages := s.compressed_messages
    compress_threshold := s.compress_threshold }

/-- Rust `Session::save` (`session.rs`).  The two external effects are
modelled explicitly: `serOk` is the success of the YAML serializer
(`serde_yaml::to_string`), `writeOk` the success of `fs::write`.  The
result is the updated session, the optional propagated error, and the
list of successful writes performed (path together with the persisted
content written there). -/
def Session.save (s : Session) (session_path : String) (serOk writeOk : Bool) :
    Session × Option String × List (String × PersistedSession) :=
  if s.dirty = false then
    (s, none, [])
  else
    let s := { s with path := some session_path }
    if serOk = false then
      (s, some ("Failed to serde session " ++ s.name), [])
    else if writeOk = false then
      (s, some ("Failed to write session " ++ s.name ++ " to " ++ session_path), [])
    else
      ({ s with dirty := false }, none, [(session_path, s.persisted)])

/-- Rust `Session::export` (`session.rs`): guarded by `guard_save`,
then a read-only rendering of path, model, temperature and token data.
The YAML rendering of the collected fields is modelled as a plain
concatenation (the serializer itself is an external collaborator; its
failure case, which the spec notes should never occur for well-formed
data, is not modelled). -/
def Session.export (s : Session) : Except String String :=
  match s.guard_save with
  | .error e => .error e
  | .ok _ =>
    .ok ((match s.path with | some p => "path: " ++ p ++ "\n" | none => "") ++
      "model: " ++ s.model_id ++ "\n" ++
      "total_tokens: " ++ toString s.tokens)

/-- Concrete model whose estimator charges 100 tokens per message, for
witnesses. -/
def demoModel : Model :=
  { id := "model-a", max_input_tokens := none, total_tokens := fun ms => 100 * ms.length }

/-- Concrete model whose estimator always reports 2500 tokens, for the
compression-threshold witnesses. -/
def bigModel : Model :=
  { id := "model-b", max_input_tokens := some 4000, total_tokens := fun _ => 2500 }

/-- Concrete input carrying one attachment binding, for witnesses. -/
def demoInput : Input :=
  { render := "hello", to_message_content := .Text "hello", data_urls := [("id1", "url1")] }

/-- Concrete embedded role (prompt contains the placeholder), for
witnesses. -/
def embRole : Role :=
  { name := "emb", prompt := "before __INPUT__ after", temperature := none }

/-- Concrete non-embedded role, for witnesses. -/
def plainRole : Role :=
  { name := "plain", prompt := "be helpful", temperature := some 1 }

/-- Fresh empty session without a role, for witnesses. -/
def emptySession : Session := Session.new "temp" demoModel none

/-- Fresh empty session with the embedded role bound, for witnesses. -/
def roleSession : Session := Session.new "temp" demoModel (some embRole)

/-- Session with history, one attachment binding and a dirty flag, for
witnesses. -/
def busySession : Session :=
  { emptySession with
    messages := [{ role := .User, content := .Text "q" },
                 { role := .Assistant, content := .Text "a" }]
    data_urls := [("a", "1")]
    dirty := true }

/-- Post-compression session: a single summary message and five
compressed messages, for the continuity-window witnesses. -/
def summarySession : Session :=
  { emptySession with
    messages := [{ role := .System, content := .Text "sum" }]
    compressed_messages :=
      [{ role := .User, content := .Text "m1" },
       { role := .Assistant, content := .Text "m2" },
       { role := .User, content := .Text "m3" },
       { role := .Assistant, content := .Text "m4" },
       { role := .User, content := .Text "m5" }] }

/-- Session bound to the constant-2500-token model, for the
compression-threshold witnesses. -/
def bigSession : Session := Session.new "temp" bigModel none

/-- Input that rebinds the attachment id already bound in
`busySession`, for the overwrite counterexample. -/
def cexInput : Input :=
  { render := "x", to_message_content := .Text "x", data_urls := [("a", "2")] }

/-- Input with an attachment binding on a fresh id, for the append-only
witness. -/
def freshInput : Input :=
  { render := "y", to_message_content := .Text "y", data_urls := [("b", "2")] }

/-- C1: `Session::compress` replaces the live history with the single
synthetic System message, appends the whole pre-call history to the
compressed ledger in order, clears the role, marks dirty, and changes
no other persisted field (model id, temperature, attachment table,
compression threshold). -/
theorem compress_spec (s : Session) (p : String) :
    (s.compress p).messages = [{ role := .System, content := .Text p }] ∧
    (s.compress p).compressed_messages = s.compressed_messages ++ s.messages ∧
    (s.compress p).role = none ∧
    (s.compress p).dirty = true ∧
    (s.compress p).model_id = s.model_id ∧
    (s.compress p).temperature = s.temperature ∧
    (s.compress p).data_urls = s.data_urls ∧
    (s.compress p).compress_threshold = s.compress_threshold :=
  ⟨rfl, rfl, rfl, rfl, rfl, rfl, rfl, rfl⟩

/-- C4: `Session::need_compress` holds exactly when the effective
threshold (session override, else the supplied default) is at least
1000 and the current token count strictly exceeds it; in particular it
is false at effective threshold 500 and true at effective threshold
2000 with 2500 tokens. -/
theorem need_compress_spec (s : Session) (d : Nat) :
    (s.need_compress d = true ↔
      1000 ≤ s.compress_threshold.getD d ∧ s.compress_threshold.getD d < s.tokens) ∧
    (s.compress_threshold.getD d = 500 → s.need_compress d = false) ∧
    (s.compress_threshold.getD d = 2000 → s.tokens = 2500 → s.need_compress d = true) := by
  refine ⟨?_, ?_, ?_⟩
  · simp [Session.need_compress]
  · intro h
    simp [Session.need_compress, h]
  · intro h h2
    simp [Session.need_compress, h, h2]

/-- Witness for C4 at a concrete session: with no session override, a
default threshold of 2000 and a 2500-token history compression is
needed; with default threshold 500 it is not. -/
theorem need_compress_spec_witness :
    bigSession.need_compress 2000 = true ∧ bigSession.need_compress 500 = false :=
  ⟨(need_compress_spec bigSession 2000).2.2 (by decide)
      (by show bigModel.total_tokens [] = 2500; rfl),
   (need_compress_spec bigSession 500).2.1 (by decide)⟩

/-- C5: `Role::embedded` is exactly the placeholder-containment test on
the prompt; `Role::build_messages` for an embedded role is a single
User message with the template merged around the input content, and for
a non-embedded role is the System message with the literal prompt
followed by the User message with the raw input content. -/
theorem role_build_messages_spec (r : Role) (i : Input) :
    (r.embedded = r.prompt.containsSub INPUT_PLACEHOLDER) ∧
    (r.embedded = true →
      r.build_messages i =
        [{ role := .User,
           content := i.to_message_content.merge_prompt
             fun v => r.prompt.replaceAll INPUT_PLACEHOLDER v }]) ∧
    (r.embedded = false →
      r.build_messages i =
        [{ role := .System, content := .Text r.prompt },
         { role := .User, content := i.to_message_content }]) := by
  refine ⟨rfl, ?_, ?_⟩
  · intro h
    simp [Role.build_messages, h]
  · intro h
    simp [Role.build_messages, h]

/-- Witness for C5 at the concrete embedded and plain roles. -/
theorem role_build_messages_spec_witness :
    embRole.build_messages demoInput = [{ role := .User, content := .Text "before hello after" }] ∧
    plainRole.build_messages demoInput =
      [{ role := .System, content := .Text "be helpful" },
       { role := .User, content := .Text "hello" }] := by
  constructor
  · rw [(role_build_messages_spec embRole demoInput).2.1 (by decide)]
    decide
  · rw [(role_build_messages_spec plainRole demoInput).2.2 (by decide)]
    decide

/-- Counterexample to C6 as stated: the code first trims surrounding
whitespace from the prompt, so with the prompt "convert __ARG1__ "
(trailing space) and name "convert:foo" the result is "convert foo",
not the claimed substitution-only result "convert foo " that leaves the
rest of the prompt text unchanged. -/
theorem complete_prompt_args_trim_cex :
    complete_prompt_args "convert __ARG1__ " "convert:foo" = "convert foo" ∧
    complete_prompt_args "convert __ARG1__ " "convert:foo" ≠ "convert foo " := by
  constructor
  · decide
  · decide

/-- C6 (amended): `Role::complete_prompt_args` sets the name and
rewrites the prompt by first trimming surrounding whitespace and then
substituting the positional placeholders with the colon-delimited
arguments in sequence (one left-to-right replacement pass per
argument); with no arguments the prompt is only trimmed, and the two
documented examples hold. -/
theorem complete_prompt_args_spec (r : Role) (n : String) :
    ((r.complete_prompt_args n).name = n ∧
     (r.complete_prompt_args n).prompt = complete_prompt_args r.prompt n ∧
     (r.complete_prompt_args n).temperature = r.temperature) ∧
    (∀ prompt name : String,
      complete_prompt_args prompt name =
        ((name.splitChar ':').drop 1).enum.foldl
          (fun p ia => p.replaceAll ("__ARG" ++ toString (ia.1 + 1) ++ "__") ia.2)
          prompt.trimStr) ∧
    (∀ prompt name : String, (name.splitChar ':').drop 1 = [] →
      complete_prompt_args prompt name = prompt.trimStr) ∧
    (complete_prompt_args "convert __ARG1__" "convert:foo" = "convert foo" ∧
     complete_prompt_args "convert __ARG1__ to __ARG2__" "convert:foo:bar" =
       "convert foo to bar") := by
  refine ⟨⟨rfl, rfl, rfl⟩, fun _ _ => rfl, ?_, by decide, by decide⟩
  intro prompt name h
  simp [complete_prompt_args, completePromptArgsCore, h]

/-- Witness for C6 (amended) at a concrete role: the parameterized name
is installed and the placeholder receives the argument. -/
theorem complete_prompt_args_spec_witness :
    ((Role.mk "convert" "convert __ARG1__" none).complete_prompt_args "convert:foo").name =
        "convert:foo" ∧
    ((Role.mk "convert" "convert __ARG1__" none).complete_prompt_args "convert:foo").prompt =
        "convert foo" ∧
    complete_prompt_args "same" "noargs" = "same" := by
  refine ⟨(complete_prompt_args_spec (Role.mk "convert" "convert __ARG1__" none)
      "convert:foo").1.1, ?_, ?_⟩
  · rw [(complete_prompt_args_spec (Role.mk "convert" "convert __ARG1__" none)
      "convert:foo").1.2.1]
    decide
  · rw [(complete_prompt_args_spec plainRole "x").2.2.1 "same" "noargs" (by decide)]
    decide

/-- C7: `Session::update_role` fails exactly on a non-empty session;
on failure the session is returned untouched (the guard fires before
any mutation), and on success the role is bound and the temperature
taken from it (none when absent). -/
theorem update_role_spec (s : Session) (r : Option Role) :
    ((s.update_role r).2.isSome = true ↔ s.messages ≠ []) ∧
    (s.messages ≠ [] → (s.update_role r).1 = s) ∧
    (s.messages = [] →
      (s.update_role r).1 =
          { s with temperature := r.bind Role.temperature, role := r } ∧
        (s.update_role r).2 = none) := by
  refine ⟨?_, ?_, ?_⟩ <;>
    cases h : s.messages <;>
      simp [Session.update_role, Session.guard_empty, Session.is_empty, h]

/-- Witness for C7: rebinding on the non-empty `busySession` errors and
leaves it unchanged; binding the plain role on the fresh `emptySession`
succeeds and installs role and temperature. -/
theorem update_role_spec_witness :
    (busySession.update_role (some plainRole)).1 = busySession ∧
    (busySession.update_role (some plainRole)).2.isSome = true ∧
    (emptySession.update_role (some plainRole)).1 =
      { emptySession with temperature := some 1, role := some plainRole } := by
  refine ⟨(update_role_spec busySession (some plainRole)).2.1 (by decide), ?_, ?_⟩
  · exact (update_role_spec busySession (some plainRole)).1.mpr (by decide)
  · exact ((update_role_spec emptySession (some plainRole)).2.2 rfl).1

/-- C2: `Session::add_message` frames the first exchange through the
bound role when the history is empty, otherwise appends a plain User
message; it always appends the Assistant reply, extends the attachment
table from the input, clears the role, marks dirty, and the pre-call
history is an unchanged prefix of the post-call history.  With an
embedded role on an empty session the result has exactly two
messages. -/
theorem add_message_spec (s : Session) (i : Input) (o : String) :
    (∀ r : Role, s.messages = [] → s.role = some r →
      (s.add_message i o).messages =
        r.build_messages i ++ [{ role := .Assistant, content := .Text o }]) ∧
    ((s.messages ≠ [] ∨ s.role = none) →
      (s.add_message i o).messages =
        s.messages ++
          [{ role := .User, content := i.to_message_content },
           { role := .Assistant, content := .Text o }]) ∧
    (s.add_message i o).data_urls = extendAL s.data_urls i.data_urls ∧
    (s.add_message i o).role = none ∧
    (s.add_message i o).dirty = true ∧
    s.messages <+: (s.add_message i o).messages ∧
    (∀ r : Role, s.messages = [] → s.role = some r → r.embedded = true →
      (s.add_message i o).messages.length = 2) := by
  refine ⟨?_, ?_, rfl, rfl, rfl, ?_, ?_⟩
  · intro r hm hr
    simp [Session.add_message, hm, hr]
  · intro h
    cases hm : s.messages with
    | nil =>
      rcases h with h | h
      · exact absurd hm h
      · simp [Session.add_message, hm, h]
    | cons a l =>
      simp [Session.add_message, hm]
  · cases hm : s.messages with
    | nil =>
      exact List.nil_prefix
    | cons a l =>
      refine ⟨[{ role := .User, content := i.to_message_content },
               { role := .Assistant, content := .Text o }], ?_⟩
      simp [Session.add_message, hm]
  · intro r hm hr hemb
    simp [Session.add_message, hm, hr, Role.build_messages, hemb]

/-- Witness for C2: on the empty session bound to the embedded role the
result is the merged User message plus the Assistant reply (two
messages in total), and on the non-empty `busySession` a plain User
message is appended before the reply. -/
theorem add_message_spec_witness :
    (roleSession.add_message demoInput "ok").messages =
      [{ role := .User, content := .Text "before hello after" },
       { role := .Assistant, content := .Text "ok" }] ∧
    (roleSession.add_message demoInput "ok").messages.length = 2 ∧
    (busySession.add_message demoInput "ok").messages =
      busySession.messages ++
        [{ role := .User, content := .Text "hello" },
         { role := .Assistant, content := .Text "ok" }] := by
  refine ⟨?_, ?_, ?_⟩
  · rw [(add_message_spec roleSession demoInput "ok").1 embRole rfl rfl]
    decide
  · exact (add_message_spec roleSession demoInput "ok").2.2.2.2.2.2 embRole rfl rfl (by decide)
  · rw [(add_message_spec busySession demoInput "ok").2.1 (Or.inl (by decide))]
    decide

/-- C3: `Session::build_emssages` is read-only (a pure function of the
session in this embedding, as the Rust method takes `&self`); on a
one-message history with at least two compressed messages it re-injects
the last two compressed messages before the new user turn; on an empty
history with a bound role it returns the role framing alone; otherwise
it appends the new user turn to the live history. -/
theorem build_emssages_spec (s : Session) (i : Input) :
    (s.messages.length = 1 → 2 ≤ s.compressed_messages.length →
      s.build_emssages i =
        s.messages ++
          s.compressed_messages.drop (s.compressed_messages.length - 2) ++
          [{ role := .User, content := i.to_message_content }]) ∧
    (∀ r : Role, s.messages = [] → s.role = some r →
      s.build_emssages i = r.build_messages i) ∧
    ((s.messages = [] → s.role = none) →
      ¬(s.messages.length = 1 ∧ 2 ≤ s.compressed_messages.length) →
      s.build_emssages i = s.messages ++ [{ role := .User, content := i.to_message_content }]) := by
  refine ⟨?_, ?_, ?_⟩
  · intro h1 h2
    have h0 : s.messages.length ≠ 0 := by omega
    simp [Session.build_emssages, h0, h1, h2]
  · intro r hm hr
    simp [Session.build_emssages, hm, hr]
  · intro hro hnot
    cases hm : s.messages with
    | nil =>
      simp [Session.build_emssages, hm, hro hm]
    | cons a l =>
      have hne : (a :: l).length ≠ 0 := by simp
      by_cases h1 : (a :: l).length = 1
      · have h2 : ¬ 2 ≤ s.compressed_messages.length := by
          intro hc
          exact hnot ⟨by rw [hm]; exact h1, hc⟩
        simp [Session.build_emssages, hm, hne, h1, h2]
      · have hl : l ≠ [] := by
          intro he
          exact h1 (by simp [he])
        simp [Session.build_emssages, hm, hne, hl]

/-- Witness for C3: on `summarySession` (one summary message, five
compressed messages) the last two compressed messages are re-injected
before the new user turn. -/
theorem build_emssages_spec_witness :
    summarySession.build_emssages demoInput =
      [{ role := .System, content := .Text "sum" },
       { role := .Assistant, content := .Text "m4" },
       { role := .User, content := .Text "m5" },
       { role := .User, content := .Text "hello" }] := by
  rw [(build_emssages_spec summarySession demoInput).1 (by decide) (by decide)]
  decide

/-- C8: `Session::save` is a no-op returning Ok on a clean session (no
write, no field change); on a dirty session it writes exactly the
persisted shape (the six serialized fields, nothing transient) to the
path and clears dirty when serialization and write both succeed, and on
either failure it propagates the error with dirty still set and nothing
persisted. -/
theorem save_spec (s : Session) (p : String) (serOk writeOk : Bool) :
    (s.dirty = false → s.save p serOk writeOk = (s, none, [])) ∧
    (s.dirty = true → serOk = true → writeOk = true →
      s.save p serOk writeOk =
        ({ s with path := some p, dirty := false }, none,
         [(p, { model := s.model_id, temperature := s.temperature,
                messages := s.messages, data_urls := s.data_urls,
                compressed_messages := s.compressed_messages,
                compress_threshold := s.compress_threshold })])) ∧
    (s.dirty = true → (serOk = false ∨ writeOk = false) →
      (s.save p serOk writeOk).2.1.isSome = true ∧
      (s.save p serOk writeOk).1.dirty = true ∧
      (s.save p serOk writeOk).2.2 = []) := by
  refine ⟨?_, ?_, ?_⟩
  · intro h
    simp [Session.save, h]
  · intro h hs hw
    simp [Session.save, Session.persisted, h, hs, hw]
  · intro h hfail
    cases hs : serOk <;> cases hw : writeOk <;>
      simp_all [Session.save]

/-- Witness for C8: saving the clean variant of `busySession` is an
identity no-op; saving the dirty `busySession` with both effects
succeeding clears dirty, records the path and writes the persisted
shape; a failing write leaves dirty set with an error. -/
theorem save_spec_witness :
    ({ busySession with dirty := false }.save "s.yaml" true true =
      ({ busySession with dirty := false }, none, [])) ∧
    (busySession.save "s.yaml" true true =
      ({ busySession with path := some "s.yaml", dirty := false }, none,
       [("s.yaml", { model := busySession.model_id,
                     temperature := busySession.temperature,
                     messages := busySession.messages,
                     data_urls := busySession.data_urls,
                     compressed_messages := busySession.compressed_messages,
                     compress_threshold := busySession.compress_threshold })])) ∧
    ((busySession.save "s.yaml" true false).1.dirty = true ∧
     (busySession.save "s.yaml" true false).2.1.isSome = true) := by
  refine ⟨(save_spec { busySession with dirty := false } "s.yaml" true true).1 rfl,
    (save_spec busySession "s.yaml" true true).2.1 rfl rfl rfl, ?_, ?_⟩
  · exact ((save_spec busySession "s.yaml" true false).2.2 rfl (Or.inr rfl)).2.1
  · exact ((save_spec busySession "s.yaml" true false).2.2 rfl (Or.inr rfl)).1

/-- C10: on a dirty session, `Session::save` installs the target path
before attempting serialization or the write, so after a failed save
the session names the attempted target while dirty stays set and
nothing was persisted, and both `guard_save` and the guard of `export`
then succeed. -/
theorem save_sets_path_spec (s : Session) (p : String) (serOk writeOk : Bool)
    (hd : s.dirty = true) (hfail : serOk = false ∨ writeOk = false) :
    (s.save p serOk writeOk).1.path = some p ∧
    (s.save p serOk writeOk).2.1.isSome = true ∧
    (s.save p serOk writeOk).2.2 = [] ∧
    (s.save p serOk writeOk).1.dirty = true ∧
    (s.save p serOk writeOk).1.guard_save = .ok () ∧
    ((s.save p serOk writeOk).1.export).toOption.isSome = true := by
  cases hs : serOk <;> cases hw : writeOk <;>
    simp_all [Session.save, Session.guard_save, Session.export, Except.toOption]

/-- Witness for C10: a failed serialization on the dirty `busySession`
leaves the attempted path installed, the error reported, nothing
written, dirty set, and the save/export guards passing. -/
theorem save_sets_path_spec_witness :
    (busySession.save "t.yaml" false true).1.path = some "t.yaml" ∧
    (busySession.save "t.yaml" false true).2.1.isSome = true ∧
    (busySession.save "t.yaml" false true).2.2 = [] ∧
    (busySession.save "t.yaml" false true).1.dirty = true ∧
    (busySession.save "t.yaml" false true).1.guard_save = .ok () ∧
    ((busySession.save "t.yaml" false true).1.export).toOption.isSome = true :=
  save_sets_path_spec busySession "t.yaml" false true rfl (Or.inl rfl)

/-- Keys survive a single overwriting insertion into the attachment
table. -/
theorem mem_keys_insertAL (m : List (String × String)) (k v k' : String)
    (h : k' ∈ m.map Prod.fst) : k' ∈ (insertAL m k v).map Prod.fst := by
  unfold insertAL
  split
  · obtain ⟨p, hp, rfl⟩ := List.mem_map.mp h
    refine List.mem_map.mpr ⟨if p.1 = k then (k, v) else p, List.mem_map_of_mem _ hp, ?_⟩
    by_cases hpk : p.1 = k
    · simp [hpk]
    · simp [hpk]
  · simp at h ⊢
    exact Or.inl h

/-- A pair whose key is not the inserted one survives an insertion
unchanged. -/
theorem mem_insertAL_of_ne (m : List (String × String)) (k v : String)
    (kv : String × String) (hm : kv ∈ m) (hne : kv.1 ≠ k) : kv ∈ insertAL m k v := by
  unfold insertAL
  split
  · exact List.mem_map.mpr ⟨kv, hm, by simp [hne]⟩
  · exact List.mem_append_left _ hm

/-- Keys survive extending the attachment table by any batch of
entries. -/
theorem mem_keys_extendAL (entries : List (String × String)) :
    ∀ (m : List (String × String)) (k' : String),
      k' ∈ m.map Prod.fst → k' ∈ (extendAL m entries).map Prod.fst := by
  induction entries with
  | nil => exact fun m k' h => h
  | cons a t ih =>
    intro m k' h
    exact ih (insertAL m a.1 a.2) k' (mem_keys_insertAL m a.1 a.2 k' h)

/-- A pair whose key is not rebound by the batch survives the extension
unchanged. -/
theorem mem_extendAL_of_not_key (entries : List (String × String)) :
    ∀ (m : List (String × String)) (kv : String × String),
      kv ∈ m → kv.1 ∉ entries.map Prod.fst → kv ∈ extendAL m entries := by
  induction entries with
  | nil => exact fun m kv h _ => h
  | cons a t ih =>
    intro m kv h hnk
    have h1 : kv.1 ≠ a.1 := by
      intro he
      exact hnk (by simp [he])
    have h2 : kv.1 ∉ t.map Prod.fst := by
      intro he
      exact hnk (by simp [he])
    exact ih (insertAL m a.1 a.2) kv (mem_insertAL_of_ne m a.1 a.2 kv h h1) h2

/-- Counterexample to C9 as stated: `add_message` extends `data_urls`
with `HashMap::extend` (insert-with-overwrite) semantics, so an input
that rebinds an already-bound opaque id replaces the old value — the
pre-call key/value pair ("a", "1") of `busySession` is no longer
present after adding a message whose input binds id "a" to "2". -/
theorem data_urls_overwrite_cex :
    ("a", "1") ∈ busySession.data_urls ∧
    ("a", "1") ∉ (busySession.add_message cexInput "out").data_urls := by
  constructor
  · decide
  · decide

/-- C9 (amended): the attachment table never loses a key under
`add_message`, and a pre-existing key/value pair survives `add_message`
whenever the input does not rebind its key (a rebound key keeps the new
value); `compress`, `update_role` and `save` leave the table unchanged;
only `clear_messages` removes entries, emptying `messages`,
`compressed_messages` and `data_urls` together and setting dirty. -/
theorem data_urls_append_only_spec (s : Session) (i : Input) (o p sp : String)
    (r : Option Role) (serOk writeOk : Bool) :
    (∀ k, k ∈ s.data_urls.map Prod.fst →
      k ∈ (s.add_message i o).data_urls.map Prod.fst) ∧
    (∀ kv, kv ∈ s.data_urls → kv.1 ∉ i.data_urls.map Prod.fst →
      kv ∈ (s.add_message i o).data_urls) ∧
    (s.compress p).data_urls = s.data_urls ∧
    (s.update_role r).1.data_urls = s.data_urls ∧
    (s.save sp serOk writeOk).1.data_urls = s.data_urls ∧
    (s.clear_messages.messages = [] ∧ s.clear_messages.compressed_messages = [] ∧
      s.clear_messages.data_urls = [] ∧ s.clear_messages.dirty = true) := by
  refine ⟨?_, ?_, rfl, ?_, ?_, rfl, rfl, rfl, rfl⟩
  · intro k hk
    exact mem_keys_extendAL i.data_urls s.data_urls k hk
  · intro kv hkv hnk
    exact mem_extendAL_of_not_key i.data_urls s.data_urls kv hkv hnk
  · cases h : s.guard_empty <;> simp [Session.update_role, h]
  · cases hd : s.dirty <;> cases hs : serOk <;> cases hw : writeOk <;>
      simp [Session.save, hd, hs, hw]

/-- Witness for C9 (amended): adding a message with a fresh attachment
id to `busySession` keeps the old binding, and clearing empties the
three history components. -/
theorem data_urls_append_only_spec_witness :
    ("a", "1") ∈ (busySession.add_message freshInput "out").data_urls ∧
    busySession.clear_messages.data_urls = [] := by
  constructor
  · exact (data_urls_append_only_spec busySession freshInput "out" "p" "sp" none true
      true).2.1 ("a", "1") (by decide) (by decide)
  · exact (data_urls_append_only_spec busySession freshInput "out" "p" "sp" none true
      true).2.2.2.2.2.2.2.1
